import Mathlib

/-!
# Property controller: store model and request handlers

A shallow embedding of `server/controllers/property.controller.js`.

The controller talks to two collaborators that are not part of the repository:
the document store (through Mongoose) and the image host (Cloudinary).  They are
modelled as follows.

* The store is a pair of collections, each a list of documents in natural order.
  Reads are pure functions of the store.
* Every call that the source awaits can throw.  Whether it does, and with which
  text, is read from an `Env` value, so that a theorem can quantify over every
  pattern of failures.
* A write issued with `{ session }` is recorded in the session and reaches the
  store only when `commitTransaction` succeeds.  A write issued without a session
  reaches the store at once.
* The image host is a function from payload to either an error text or the `url`
  of the upload result.
-/

namespace PropertyController

/-! ## Data model -/

/-- Property document, with the fields the controller reads and writes. -/
structure Property where
  _id : Nat
  title : String
  description : String
  propertyType : String
  location : String
  price : Nat
  photo : String
  creator : Nat
deriving DecidableEq, Repr

/-- User document, with the fields the controller reads and writes. -/
structure User where
  _id : Nat
  email : String
  allProperties : List Nat
deriving DecidableEq, Repr

/-- The two collections of the database. -/
structure Store where
  properties : List Property
  users : List User
deriving DecidableEq, Repr

/-- Unique `_id` inside each collection, as the store enforces it. -/
def Store.WF (s : Store) : Prop :=
  (s.properties.map (fun p => p._id)).Nodup ∧ (s.users.map (fun u => u._id)).Nodup

instance (s : Store) : Decidable s.WF := by
  unfold Store.WF
  exact inferInstance

/-! ## The environment of one request -/

/-- Outcomes of the calls that leave the process during one request.
An error field set to `some msg` makes the corresponding awaited call throw `msg`. -/
structure Env where
  /-- Result of `cloudinary.uploader.upload(payload)`: the error text or the `url` of the result. -/
  upload : String → Except String String
  /-- Failure of `mongoose.startSession()`. -/
  startSessionErr : Option String
  /-- Failure of a read (`findOne`, `findById`, `find`, `countDocuments`). -/
  findErr : Option String
  /-- Identifier the store gives to the next inserted document. -/
  newId : Nat
  /-- Failure of `Property.create`. -/
  insertErr : Option String
  /-- Failure of `propertyToDelete.remove`. -/
  removeErr : Option String
  /-- Failure of `Property.findByIdAndUpdate`. -/
  updateErr : Option String
  /-- Failure of `user.save`. -/
  saveErr : Option String
  /-- Failure of `session.commitTransaction()`. -/
  commitErr : Option String
  /-- Mongoose option `strictQuery`: filter paths outside the schema are dropped. -/
  strictQuery : Bool
  /-- The store regular expression test: pattern, options, subject. -/
  regexTest : String → String → String → Bool
  /-- The store sort: sort key, direction, documents. -/
  sort : Option String → Option String → List Property → List Property

/-! ## Responses -/

/-- Body passed to `res.json`. -/
inductive Body where
  | message (text : String)
  | properties (docs : List Property)
deriving DecidableEq, Repr

/-- Value of a response header. -/
inductive HeaderValue where
  | num (n : Nat)
  | str (s : String)
deriving DecidableEq, Repr

/-- What `res.status(code).json(body)` sends, with the headers set before. -/
structure Response where
  status : Nat
  headers : List (String × HeaderValue)
  body : Body
deriving DecidableEq, Repr

/-- How a handler ends: it sends a response, or an exception escapes it and nothing is sent. -/
inductive Outcome where
  | sent (r : Response)
  | uncaught (error : String)
deriving DecidableEq, Repr

/-- Calls observable from outside the store. -/
inductive Event where
  | uploaded (payload : String)
  | transactionStarted
  | transactionCommitted
deriving DecidableEq, Repr

/-- State of the world after a handler has run. -/
structure Result where
  store : Store
  outcome : Outcome
  events : List Event
deriving DecidableEq, Repr

/-- Response `res.status(code).json({ message })`. -/
def jsonMessage (code : Nat) (text : String) : Outcome :=
  .sent { status := code, headers := [], body := .message text }

/-! ## Store primitives -/

/-- Read `User.findOne({ email })`: first user with that email. -/
def findUserByEmail (us : List User) (email : String) : Option User :=
  us.find? (fun u => u.email = email)

/-- Resolution of a `creator` reference by `populate`. -/
def findUserById (us : List User) (id : Nat) : Option User :=
  us.find? (fun u => u._id = id)

/-- Read `Property.findById`. -/
def findPropertyById (ps : List Property) (id : Nat) : Option Property :=
  ps.find? (fun p => p._id = id)

/-- Insert of `Property.create(doc)`: refused when the `_id` is already in the collection. -/
def insertProperty (env : Env) (ps : List Property) (doc : Property) : Except String (List Property) :=
  match env.insertErr with
  | some e => .error e
  | none =>
    if (ps.map (fun p => p._id)).contains doc._id then .error "E11000 duplicate key error"
    else .ok (ps ++ [doc])

/-- Array operation `allProperties.push(id)`. -/
def push (l : List Nat) (id : Nat) : List Nat := l ++ [id]

/-- Array operation `allProperties.pull(doc)`: every entry equal to the `_id` of the document goes. -/
def pull (l : List Nat) (id : Nat) : List Nat := l.filter (fun x => x ≠ id)

/-- A write made under a session, waiting for the commit. -/
inductive Write where
  | removeProperty (id : Nat)
  | saveAllProperties (userId : Nat) (allProperties : List Nat)
deriving DecidableEq, Repr

/-- Delete the document with the given `_id`. -/
def removeById (id : Nat) : List Property → List Property
  | [] => []
  | p :: ps => if p._id = id then ps else p :: removeById id ps

/-- Store the modified path `allProperties` of the user with the given `_id`. -/
def storeAllProperties (id : Nat) (l : List Nat) : List User → List User
  | [] => []
  | u :: us =>
    if u._id = id then { u with allProperties := l } :: us
    else u :: storeAllProperties id l us

/-- Effect of one write on the store. -/
def applyWrite (s : Store) : Write → Store
  | .removeProperty id => { s with properties := removeById id s.properties }
  | .saveAllProperties uid l => { s with users := storeAllProperties uid l s.users }

/-- Effect of a successful `commitTransaction`: the session writes, in the order issued. -/
def commit (s : Store) (pending : List Write) : Store :=
  pending.foldl applyWrite s

/-! ## createProperty -/

/-- Body of a create request (`req.body`). -/
structure CreateBody where
  title : String
  description : String
  propertyType : String
  location : String
  price : Nat
  photo : String
  email : String
deriving DecidableEq, Repr

/-- The single reply of the `catch` block of `createProperty`. -/
def createFailed : Outcome :=
  jsonMessage 500 "Failed to create property, please try again later"

/-- Handler `createProperty`.  The session is started and the user is read under it;
`Property.create` is called without the session, so the insert reaches the store at once;
`user.save({ session })` is recorded in the session and applied by the commit. -/
def createProperty (env : Env) (s : Store) (body : CreateBody) : Result :=
  match env.startSessionErr with
  | some _ => { store := s, outcome := createFailed, events := [] }
  | none =>
    -- session.startTransaction()
    match env.findErr with
    | some _ => { store := s, outcome := createFailed, events := [.transactionStarted] }
    | none =>
      match findUserByEmail s.users body.email with
      | none =>
        -- throw new Error('User not found')
        { store := s, outcome := createFailed, events := [.transactionStarted] }
      | some user =>
        match env.upload body.photo with
        | .error _ =>
          { store := s, outcome := createFailed,
            events := [.transactionStarted, .uploaded body.photo] }
        | .ok photoUrl =>
          let newProperty : Property :=
            { _id := env.newId
              title := body.title
              description := body.description
              propertyType := body.propertyType
              location := body.location
              price := body.price
              photo := photoUrl
              creator := user._id }
          match insertProperty env s.properties newProperty with
          | .error _ =>
            { store := s, outcome := createFailed,
              events := [.transactionStarted, .uploaded body.photo] }
          | .ok properties =>
            let s1 : Store := { s with properties := properties }
            let allProperties := push user.allProperties newProperty._id
            match env.saveErr with
            | some _ =>
              { store := s1, outcome := createFailed,
                events := [.transactionStarted, .uploaded body.photo] }
            | none =>
              let pending := [Write.saveAllProperties user._id allProperties]
              match env.commitErr with
              | some _ =>
                { store := s1, outcome := createFailed,
                  events := [.transactionStarted, .uploaded body.photo] }
              | none =>
                { store := commit s1 pending
                  outcome := jsonMessage 200 "Property created successfully"
                  events := [.transactionStarted, .uploaded body.photo, .transactionCommitted] }

/-! ## updateProperty -/

/-- Body of an update request (`req.body`).  A field that the request does not carry is
`undefined` in the source and `none` here. -/
structure UpdateBody where
  title : Option String
  description : Option String
  propertyType : Option String
  location : Option String
  price : Option Nat
  photo : Option String
deriving DecidableEq, Repr

/-- The update document given to `findByIdAndUpdate`; `none` is an `undefined` value. -/
structure PropertyUpdate where
  title : Option String
  description : Option String
  propertyType : Option String
  location : Option String
  price : Option Nat
  photo : Option String
deriving DecidableEq, Repr

/-- A document after an update: a field with a value is set, a field whose value is
`undefined` is not part of the update and stays as stored. -/
def Property.assign (p : Property) (upd : PropertyUpdate) : Property :=
  { p with
    title := upd.title.getD p.title
    description := upd.description.getD p.description
    propertyType := upd.propertyType.getD p.propertyType
    location := upd.location.getD p.location
    price := upd.price.getD p.price
    photo := upd.photo.getD p.photo }

/-- Store primitive `Property.findByIdAndUpdate`: updates the document with that `_id`; a
missing document is no error. -/
def findByIdAndUpdate (id : Nat) (upd : PropertyUpdate) : List Property → List Property
  | [] => []
  | p :: ps =>
    if p._id = id then p.assign upd :: ps
    else p :: findByIdAndUpdate id upd ps

/-- Truthiness of a string value that may be `undefined`: a non-empty string. -/
def truthy : Option String → Bool
  | some v => decide (v ≠ "")
  | none => false

/-- Expression `photoUrl.url || photo`: the url when it is truthy, else the request photo.
The url is `undefined` when `photoUrl` is still the empty string. -/
def photoValue (url : Option String) (photo : Option String) : Option String :=
  if truthy url then url else photo

/-- End of `updateProperty` through its `catch` block.  The block has no binding, so the
`error` it reads is not defined: evaluating the argument of `json` throws a ReferenceError
and no response is sent. -/
def updateCatch : Outcome :=
  .uncaught "ReferenceError: error is not defined"

/-- The call of `Property.findByIdAndUpdate` in `updateProperty` and the reply that follows,
given the url of `photoUrl` and the events so far. -/
def writeUpdate (env : Env) (s : Store) (id : Nat) (body : UpdateBody) (url : Option String)
    (events : List Event) : Result :=
  match env.updateErr with
  | some _ => { store := s, outcome := updateCatch, events := events }
  | none =>
    { store :=
        { s with
          properties :=
            findByIdAndUpdate id
              { title := body.title
                description := body.description
                propertyType := body.propertyType
                location := body.location
                price := body.price
                photo := photoValue url body.photo } s.properties }
      outcome := jsonMessage 200 "Property updated successfully"
      events := events }

/-- Handler `updateProperty`. -/
def updateProperty (env : Env) (s : Store) (id : Nat) (body : UpdateBody) : Result :=
  -- let photoUrl = ''; if (photo) photoUrl = await cloudinary.uploader.upload(photo)
  match body.photo with
  | none => writeUpdate env s id body none []
  | some payload =>
    if payload ≠ "" then
      match env.upload payload with
      | .error _ => { store := s, outcome := updateCatch, events := [.uploaded payload] }
      | .ok url => writeUpdate env s id body (some url) [.uploaded payload]
    else
      -- photoUrl is still the empty string and its url is undefined
      writeUpdate env s id body none []

/-! ## deleteProperty -/

/-- Writes recorded by `propertyToDelete.remove({session})`.  The call is not awaited:
when it fails nothing is recorded and the error does not reach the `catch` block. -/
def removeUnderSession (env : Env) (id : Nat) : List Write :=
  match env.removeErr with
  | some _ => []
  | none => [.removeProperty id]

/-- Handler `deleteProperty`. -/
def deleteProperty (env : Env) (s : Store) (id : Nat) : Result :=
  match env.findErr with
  | some e => { store := s, outcome := jsonMessage 500 e, events := [] }
  | none =>
    match findPropertyById s.properties id with
    | none => { store := s, outcome := jsonMessage 500 "Property not found", events := [] }
    | some propertyToDelete =>
      -- populate('creator')
      let creator := findUserById s.users propertyToDelete.creator
      match env.startSessionErr with
      | some e => { store := s, outcome := jsonMessage 500 e, events := [] }
      | none =>
        -- session.startTransaction()
        let removed := removeUnderSession env propertyToDelete._id
        match creator with
        | none =>
          { store := s
            outcome := jsonMessage 500 "Cannot read properties of null"
            events := [.transactionStarted] }
        | some creator =>
          let allProperties := pull creator.allProperties propertyToDelete._id
          match env.saveErr with
          | some e => { store := s, outcome := jsonMessage 500 e, events := [.transactionStarted] }
          | none =>
            let pending := removed ++ [Write.saveAllProperties creator._id allProperties]
            match env.commitErr with
            | some e =>
              { store := s, outcome := jsonMessage 500 e, events := [.transactionStarted] }
            | none =>
              { store := commit s pending
                outcome := jsonMessage 200 "Property deleted successfully"
                events := [.transactionStarted, .transactionCommitted] }

/-! ## getAllProperties -/

/-- Query string of a listing request (`req.query`) as the destructuring reads it: only
`title_like` and `propertyType` default to the empty string; `_end`, `_order`, `_start` and
`_sort` are `undefined` when absent, here `none`. -/
structure ListQuery where
  _end : Option Nat
  _order : Option String
  _start : Option Nat
  _sort : Option String
  title_like : String
  propertyType : String

/-- One condition of a filter. -/
inductive Cond where
  | eq (v : String)
  | regex (pattern : String) (options : String)
deriving DecidableEq, Repr

/-- The object `query` that the handler assembles: path and condition. -/
abbrev Query := List (String × Cond)

/-- Value under a path of a filter: a condition, or an embedded object. -/
inductive FilterEntry where
  | cond (c : Cond)
  | object (q : Query)
deriving DecidableEq, Repr

/-- Argument of `find` and `countDocuments`. -/
abbrev Filter := List (String × FilterEntry)

/-- Paths of the Property schema. -/
def schemaPaths : List String :=
  ["_id", "title", "description", "propertyType", "location", "price", "photo", "creator"]

/-- Text fields of a Property document by path. -/
def Property.text? (p : Property) (path : String) : Option String :=
  if path = "title" then some p.title
  else if path = "description" then some p.description
  else if path = "propertyType" then some p.propertyType
  else if path = "location" then some p.location
  else if path = "photo" then some p.photo
  else none

/-- Test of one condition on a text value. -/
def condHolds (env : Env) (c : Cond) (v : String) : Bool :=
  match c with
  | .eq w => v = w
  | .regex pattern options => env.regexTest pattern options v

/-- Test of one filter entry on a document.  No field of a Property is an embedded object,
so an entry whose value is an object matches no document. -/
def entryHolds (env : Env) (p : Property) (e : String × FilterEntry) : Bool :=
  match e.2 with
  | .cond c =>
    match p.text? e.1 with
    | some v => condHolds env c v
    | none => false
  | .object _ => false

/-- The filter as the store receives it: under `strictQuery` the paths outside the schema
are removed first. -/
def castFilter (env : Env) (f : Filter) : Filter :=
  if env.strictQuery then f.filter (fun e => schemaPaths.contains e.1) else f

/-- Documents selected by a filter. -/
def matching (env : Env) (ps : List Property) (f : Filter) : List Property :=
  ps.filter (fun p => (castFilter env f).all (entryHolds env p))

/-- Store primitive `Property.countDocuments(filter)`. -/
def countDocuments (env : Env) (ps : List Property) (f : Filter) : Nat :=
  (matching env ps f).length

/-- The object `query` built from the request. -/
def buildQuery (q : ListQuery) : Query :=
  (if q.propertyType ≠ "" then [("propertyType", Cond.eq q.propertyType)] else []) ++
  (if q.title_like ≠ "" then [("title", Cond.regex q.title_like "i")] else [])

/-- The filter `query` itself, as passed to `find`. -/
def asFilter (query : Query) : Filter :=
  query.map (fun e => (e.1, FilterEntry.cond e.2))

/-- The filter `{ query }`, as passed to `countDocuments`: one path named `query`. -/
def wrapped (query : Query) : Filter :=
  [("query", FilterEntry.object query)]

/-- Cursor `find(filter).limit(_end).skip(_start).sort(...)`: the store sorts, then skips,
then limits; a limit of zero or none is no limit. -/
def findPage (env : Env) (ps : List Property) (f : Filter) (q : ListQuery) : List Property :=
  let sorted := env.sort q._sort q._order (matching env ps f)
  let skipped := sorted.drop (q._start.getD 0)
  match q._end with
  | none => skipped
  | some 0 => skipped
  | some (n + 1) => skipped.take (n + 1)

/-- Handler `getAllProperties`. -/
def getAllProperties (env : Env) (s : Store) (q : ListQuery) : Result :=
  let query := buildQuery q
  match env.findErr with
  | some e => { store := s, outcome := jsonMessage 500 e, events := [] }
  | none =>
    let count := countDocuments env s.properties (wrapped query)
    let properties := findPage env s.properties (asFilter query) q
    { store := s
      outcome := .sent
        { status := 200
          headers := [("x-total-count", .num count),
                      ("Access-Control-Expose-Headers", .str "x-total-count")]
          body := .properties properties }
      events := [] }

/-- The value of the `x-total-count` header of an outcome. -/
def totalCount : Outcome → Option HeaderValue
  | .sent r => (r.headers.find? (fun h => h.1 = "x-total-count")).map (fun h => h.2)
  | .uncaught _ => none

/-! ## Referential integrity -/

/-- Every Property has a creator that resolves to a User whose `allProperties` holds the
`_id` of the Property. -/
def integrity (s : Store) : Bool :=
  s.properties.all (fun p =>
    match findUserById s.users p.creator with
    | some u => u.allProperties.contains p._id
    | none => false)

/-! ## Sample data -/

/-- Sample matcher: for a pattern without metacharacters the regular expression test with
option `i` is a substring test that ignores case. -/
def containsIgnoringCase (pattern : String) (_options : String) (subject : String) : Bool :=
  decide ((pattern.toList.map Char.toLower) <:+: (subject.toList.map Char.toLower))

/-- Environment in which every call succeeds. -/
def calm : Env :=
  { upload := fun _ => .ok "https://img.example/flat.png"
    startSessionErr := none
    findErr := none
    newId := 10
    insertErr := none
    removeErr := none
    updateErr := none
    saveErr := none
    commitErr := none
    strictQuery := true
    regexTest := containsIgnoringCase
    sort := fun _ _ ps => ps }

/-- User `a@x.com` owning nothing. -/
def alice : User := { _id := 1, email := "a@x.com", allProperties := [] }

/-- Store with the single user `a@x.com` and no Property. -/
def aliceOnly : Store := { properties := [], users := [alice] }

/-- Create request for a flat owned by `a@x.com`. -/
def flatRequest : CreateBody :=
  { title := "Flat", description := "Two rooms", propertyType := "Apartment",
    location := "Lyon", price := 100000, photo := "data:image/png;base64,AAAA",
    email := "a@x.com" }

/-- The Property that `flatRequest` creates under `calm`. -/
def flat : Property :=
  { _id := 10, title := "Flat", description := "Two rooms", propertyType := "Apartment",
    location := "Lyon", price := 100000, photo := "https://img.example/flat.png", creator := 1 }

/-- Store in which `a@x.com` owns `flat`. -/
def aliceWithFlat : Store :=
  { properties := [flat], users := [{ alice with allProperties := [10] }] }

/-- User `b@x.com`, whose list names Property 10 although `a@x.com` created it. -/
def bob : User := { _id := 2, email := "b@x.com", allProperties := [10] }

/-- Store in which `flat` is listed both by its creator and by `bob`. -/
def listedTwice : Store :=
  { properties := [flat], users := [{ alice with allProperties := [10] }, bob] }

/-- Environment in which the image host rejects every upload. -/
def hostDown : Env := { calm with upload := fun _ => .error "upload failed" }

/-- Environment in which the image host answers with an empty url. -/
def blankUrl : Env := { calm with upload := fun _ => .ok "" }

/-- Environment in which `Property.create` fails. -/
def insertDown : Env := { calm with insertErr := some "validation failed" }

/-- Environment in which `findByIdAndUpdate` fails. -/
def updateDown : Env := { calm with updateErr := some "write failed" }

/-- Environment in which `user.save` fails. -/
def saveDown : Env := { calm with saveErr := some "write conflict" }

/-- Environment in which `commitTransaction` fails. -/
def commitDown : Env := { calm with commitErr := some "commit failed" }

/-- Environment in which `propertyToDelete.remove` fails. -/
def removeDown : Env := { calm with removeErr := some "remove failed" }

/-- Environment with `strictQuery` off. -/
def loose : Env := { calm with strictQuery := false }

/-- Environment in which the read rejects, as `findById` does with a CastError when the
identifier of the request is not a valid ObjectId. -/
def readDown : Env := { calm with findErr := some "Cast to ObjectId failed" }

/-- Update request that sends a new photo payload. -/
def flatEdit : UpdateBody :=
  { title := some "Flat", description := some "Three rooms", propertyType := some "Apartment",
    location := some "Lyon", price := some 120000, photo := some "data:image/png;base64,BBBB" }

/-- Update request that carries no photo field. -/
def flatEditNoPhoto : UpdateBody := { flatEdit with photo := none }

/-- Update request whose photo field is the empty string. -/
def flatEditEmptyPhoto : UpdateBody := { flatEdit with photo := some "" }

/-- Apartment whose title holds the word lake. -/
def lakeFlat : Property :=
  { _id := 11, title := "Lake view", description := "Sunny", propertyType := "Apartment",
    location := "Annecy", price := 200000, photo := "https://img.example/lake.png", creator := 1 }

/-- House whose title holds the word lake. -/
def lakeHouse : Property :=
  { _id := 12, title := "Lake house", description := "Large", propertyType := "House",
    location := "Annecy", price := 400000, photo := "https://img.example/house.png",
    creator := 1 }

/-- Store with three listings of `a@x.com`. -/
def listings : Store :=
  { properties := [flat, lakeFlat, lakeHouse],
    users := [{ alice with allProperties := [10, 11, 12] }] }

/-- Listing request for apartments whose title holds `lake`. -/
def lakeApartments : ListQuery :=
  { _end := some 10, _order := some "asc", _start := some 0, _sort := some "title",
    title_like := "lake", propertyType := "Apartment" }

/-! ## Lemmas on the store primitives -/

theorem map_eq_self_of_id_not_mem (id : Nat) (f : User → User) :
    ∀ us : List User, id ∉ us.map (fun u => u._id) →
      us.map (fun v => if v._id = id then f v else v) = us
  | [], _ => rfl
  | u :: us, h => by
    simp only [List.map_cons, List.mem_cons, not_or] at h
    have hne : ¬ u._id = id := fun e => h.1 e.symm
    simp only [List.map_cons, if_neg hne]
    rw [map_eq_self_of_id_not_mem id f us h.2]

theorem storeAllProperties_eq_map (id : Nat) (l : List Nat) :
    ∀ us : List User, (us.map (fun u => u._id)).Nodup →
      storeAllProperties id l us =
        us.map (fun v => if v._id = id then { v with allProperties := l } else v)
  | [], _ => rfl
  | u :: us, h => by
    simp only [List.map_cons, List.nodup_cons] at h
    by_cases hu : u._id = id
    · simp only [storeAllProperties, if_pos hu, List.map_cons]
      rw [map_eq_self_of_id_not_mem id _ us (hu ▸ h.1)]
    · simp only [storeAllProperties, if_neg hu, List.map_cons]
      rw [storeAllProperties_eq_map id l us h.2]

theorem findUserById_of_mem {u : User} :
    ∀ us : List User, (us.map (fun u => u._id)).Nodup → u ∈ us → findUserById us u._id = some u
  | [], _, h => by simp at h
  | v :: us, hnd, h => by
    simp only [List.map_cons, List.nodup_cons] at hnd
    by_cases hv : v._id = u._id
    · have : u = v := by
        rcases List.mem_cons.1 h with e | hm
        · exact e
        · have hin : u._id ∈ us.map (fun u => u._id) := List.mem_map_of_mem (fun u => u._id) hm
          rw [← hv] at hin
          exact absurd hin hnd.1
      subst this
      simp [findUserById]
    · have hm : u ∈ us := by
        rcases List.mem_cons.1 h with e | hm
        · exact absurd (congrArg User._id e).symm hv
        · exact hm
      have ih := findUserById_of_mem us hnd.2 hm
      simp only [findUserById] at ih ⊢
      simp [List.find?_cons, hv, ih]

theorem findUserByEmail_some {us : List User} {email : String} {u : User}
    (h : findUserByEmail us email = some u) : u ∈ us ∧ u.email = email := by
  unfold findUserByEmail at h
  exact ⟨List.mem_of_find?_eq_some h, by simpa using List.find?_some h⟩

theorem findUserById_storeAllProperties (id : Nat) (l : List Nat) :
    ∀ (us : List User) (u : User), findUserById us id = some u →
      findUserById (storeAllProperties id l us) id = some { u with allProperties := l }
  | [], _, h => by simp [findUserById] at h
  | v :: us, u, h => by
    by_cases hv : v._id = id
    · simp only [findUserById, List.find?_cons, hv, decide_True] at h
      simp only [Option.some.injEq] at h
      subst h
      simp [findUserById, storeAllProperties, hv]
    · have h2 : findUserById us id = some u := by
        simpa [findUserById, List.find?_cons, hv] using h
      have ih := findUserById_storeAllProperties id l us u h2
      simp only [findUserById] at ih ⊢
      simp [storeAllProperties, hv, List.find?_cons, ih]

/-! ## createProperty: success and unknown owner -/

/-- C4. Create success: when the email resolves to user `u`, no call fails and the new
identifier is not yet in use, the handler answers 200, the Property collection is the old one
followed by exactly one new document carrying the request values, the uploaded url and
`u._id` as creator, the `allProperties` of `u` is the old list with the new identifier
appended at the end, every other user is unchanged, and no Property had the new identifier
before. -/
theorem createProperty_success (env : Env) (s : Store) (body : CreateBody) (u : User)
    (url : String)
    (hwf : s.WF)
    (hu : findUserByEmail s.users body.email = some u)
    (hsession : env.startSessionErr = none)
    (hread : env.findErr = none)
    (hupload : env.upload body.photo = .ok url)
    (hinsert : env.insertErr = none)
    (hfresh : ∀ p ∈ s.properties, p._id ≠ env.newId)
    (hsave : env.saveErr = none)
    (hcommit : env.commitErr = none) :
    (createProperty env s body).outcome = jsonMessage 200 "Property created successfully" ∧
    (createProperty env s body).store.properties =
      s.properties ++
        [{ _id := env.newId, title := body.title, description := body.description,
           propertyType := body.propertyType, location := body.location,
           price := body.price, photo := url, creator := u._id }] ∧
    (createProperty env s body).store.users =
      s.users.map (fun v =>
        if v._id = u._id then { v with allProperties := u.allProperties ++ [env.newId] }
        else v) ∧
    findUserById (createProperty env s body).store.users u._id =
      some { u with allProperties := u.allProperties ++ [env.newId] } ∧
    findPropertyById s.properties env.newId = none := by
  have hdup : ¬ ∃ a ∈ s.properties, a._id = env.newId := by
    rintro ⟨p, hp, hid⟩
    exact hfresh p hp hid
  have hmem := (findUserByEmail_some hu).1
  have hfind := findUserById_of_mem s.users hwf.2 hmem
  have hrun : createProperty env s body =
      { store :=
          { properties := s.properties ++
              [{ _id := env.newId, title := body.title, description := body.description,
                 propertyType := body.propertyType, location := body.location,
                 price := body.price, photo := url, creator := u._id }]
            users := storeAllProperties u._id (u.allProperties ++ [env.newId]) s.users }
        outcome := jsonMessage 200 "Property created successfully"
        events := [.transactionStarted, .uploaded body.photo, .transactionCommitted] } := by
    simp [createProperty, hsession, hread, hu, hupload, insertProperty, hinsert, hdup, hsave,
      hcommit, commit, applyWrite, push]
  rw [hrun]
  refine ⟨rfl, rfl, ?_, ?_, ?_⟩
  · exact storeAllProperties_eq_map _ _ _ hwf.2
  · exact findUserById_storeAllProperties _ _ _ _ hfind
  · unfold findPropertyById
    rw [List.find?_eq_none]
    intro p hp
    simpa using hfresh p hp

/-- Witness for C4: `a@x.com` owning nothing, title Flat, price 100000. -/
theorem createProperty_success_witness :
    (createProperty calm aliceOnly flatRequest).outcome =
        jsonMessage 200 "Property created successfully" ∧
      (createProperty calm aliceOnly flatRequest).store.properties = [flat] ∧
      findUserById (createProperty calm aliceOnly flatRequest).store.users 1 =
        some { alice with allProperties := [10] } := by
  have h := createProperty_success calm aliceOnly flatRequest alice
    "https://img.example/flat.png" (by decide) (by decide) rfl rfl rfl rfl (by decide) rfl rfl
  exact ⟨h.1, h.2.1, h.2.2.2.1⟩

/-- C6. Create with an unknown owner: when no user has the email of the request, the handler
answers 500, the image host is never called and the store is unchanged, whatever the
environment does. -/
theorem createProperty_unknown_owner (env : Env) (s : Store) (body : CreateBody)
    (h : ∀ u ∈ s.users, u.email ≠ body.email) :
    (createProperty env s body).outcome =
        jsonMessage 500 "Failed to create property, please try again later" ∧
      (∀ payload, Event.uploaded payload ∉ (createProperty env s body).events) ∧
      (createProperty env s body).store = s := by
  have hnone : findUserByEmail s.users body.email = none := by
    unfold findUserByEmail
    rw [List.find?_eq_none]
    intro u hu
    simpa using h u hu
  unfold createProperty
  cases env.startSessionErr <;> cases env.findErr <;> simp [hnone, createFailed]

/-- Witness for C6: the email `b@x.com` is unknown in the store that holds only `a@x.com`. -/
theorem createProperty_unknown_owner_witness :
    (createProperty calm aliceOnly { flatRequest with email := "b@x.com" }).outcome =
        jsonMessage 500 "Failed to create property, please try again later" ∧
      (createProperty calm aliceOnly { flatRequest with email := "b@x.com" }).store = aliceOnly := by
  have h := createProperty_unknown_owner calm aliceOnly { flatRequest with email := "b@x.com" }
    (by decide)
  exact ⟨h.1, h.2.2⟩

/-! ## deleteProperty: unknown identifier -/

/-- C7, as amended. Delete of an unknown Property: when no Property has the identifier, the
handler answers 500, starts no transaction and leaves the store unchanged, whatever the
environment does; the message is Property not found when the lookup completes, and the
error text of the lookup when the lookup rejects. -/
theorem deleteProperty_unknown_id (env : Env) (s : Store) (id : Nat)
    (h : ∀ p ∈ s.properties, p._id ≠ id) :
    (deleteProperty env s id).outcome =
        jsonMessage 500 (env.findErr.getD "Property not found") ∧
      Event.transactionStarted ∉ (deleteProperty env s id).events ∧
      (deleteProperty env s id).store = s := by
  have hnone : findPropertyById s.properties id = none := by
    unfold findPropertyById
    rw [List.find?_eq_none]
    intro p hp
    simpa using h p hp
  unfold deleteProperty
  cases env.findErr <;> simp [hnone]

/-- Witness for C7 as amended: identifier 99 in a store whose only Property is 10, with a
lookup that completes and with a lookup that rejects. -/
theorem deleteProperty_unknown_id_witness :
    ((deleteProperty calm aliceWithFlat 99).outcome = jsonMessage 500 "Property not found" ∧
      Event.transactionStarted ∉ (deleteProperty calm aliceWithFlat 99).events ∧
      (deleteProperty calm aliceWithFlat 99).store = aliceWithFlat) ∧
    ((deleteProperty readDown aliceWithFlat 99).outcome =
        jsonMessage 500 "Cast to ObjectId failed" ∧
      Event.transactionStarted ∉ (deleteProperty readDown aliceWithFlat 99).events ∧
      (deleteProperty readDown aliceWithFlat 99).store = aliceWithFlat) :=
  ⟨deleteProperty_unknown_id calm aliceWithFlat 99 (by decide),
    deleteProperty_unknown_id readDown aliceWithFlat 99 (by decide)⟩

/-- Counterexample for C7 as stated: identifier 99 matches no Property, the lookup rejects,
and the 500 reply carries the error text of the lookup, not the message Property not
found. -/
theorem deleteProperty_unknown_id_other_message :
    (∀ p ∈ aliceWithFlat.properties, p._id ≠ 99) ∧
      (deleteProperty readDown aliceWithFlat 99).outcome =
        jsonMessage 500 "Cast to ObjectId failed" ∧
      (deleteProperty readDown aliceWithFlat 99).outcome ≠
        jsonMessage 500 "Property not found" := by
  decide

/-! ## deleteProperty: success -/

theorem removeById_eq_filter (id : Nat) :
    ∀ ps : List Property, (ps.map (fun p => p._id)).Nodup →
      removeById id ps = ps.filter (fun p => p._id ≠ id)
  | [], _ => rfl
  | p :: ps, h => by
    simp only [List.map_cons, List.nodup_cons] at h
    by_cases hp : p._id = id
    · have hrest : ps.filter (fun q => q._id ≠ id) = ps := by
        rw [List.filter_eq_self]
        intro q hq
        have hin : q._id ∈ ps.map (fun p => p._id) := List.mem_map_of_mem (fun p => p._id) hq
        have : q._id ≠ id := fun e => h.1 (by rw [hp, ← e]; exact hin)
        simpa using this
      simp only [removeById, if_pos hp]
      have hhead : decide (p._id ≠ id) = false := by simp [hp]
      rw [List.filter_cons, hhead, hrest]
      rfl
    · simp [removeById, hp, removeById_eq_filter id ps h.2]

theorem findPropertyById_some {ps : List Property} {id : Nat} {P : Property}
    (h : findPropertyById ps id = some P) : P ∈ ps ∧ P._id = id := by
  unfold findPropertyById at h
  exact ⟨List.mem_of_find?_eq_some h, by simpa using List.find?_some h⟩

theorem findPropertyById_filter_ne (ps : List Property) (id : Nat) :
    findPropertyById (ps.filter (fun p => p._id ≠ id)) id = none := by
  unfold findPropertyById
  rw [List.find?_eq_none]
  intro p hp
  simpa using (List.mem_filter.1 hp).2

/-- C5, as amended. Delete success: when Property `P` has the identifier, its creator
resolves to `u` and no call fails, the handler answers 200, `P` is gone and every other
Property is kept in order, the `allProperties` of `u` is the old list without any occurrence
of the identifier and otherwise in the old order, every other user is unchanged, and the only
users whose list still holds the identifier are users other than `u` that are kept as they
were. -/
theorem deleteProperty_success (env : Env) (s : Store) (id : Nat) (P : Property) (u : User)
    (hwf : s.WF)
    (hP : findPropertyById s.properties id = some P)
    (hu : findUserById s.users P.creator = some u)
    (hread : env.findErr = none)
    (hsession : env.startSessionErr = none)
    (hremove : env.removeErr = none)
    (hsave : env.saveErr = none)
    (hcommit : env.commitErr = none) :
    (deleteProperty env s id).outcome = jsonMessage 200 "Property deleted successfully" ∧
    (deleteProperty env s id).store.properties = s.properties.filter (fun p => p._id ≠ id) ∧
    findPropertyById (deleteProperty env s id).store.properties id = none ∧
    (deleteProperty env s id).store.users =
      s.users.map (fun v =>
        if v._id = u._id then
          { v with allProperties := u.allProperties.filter (fun x => x ≠ id) }
        else v) ∧
    findUserById (deleteProperty env s id).store.users u._id =
      some { u with allProperties := u.allProperties.filter (fun x => x ≠ id) } ∧
    (∀ v ∈ (deleteProperty env s id).store.users,
      id ∈ v.allProperties → v ∈ s.users ∧ v._id ≠ u._id) := by
  have hid : P._id = id := (findPropertyById_some hP).2
  have huid : u._id = P.creator := by
    have := List.find?_some (show s.users.find? (fun u => u._id = P.creator) = some u from hu)
    simpa using this
  have hfind : findUserById s.users u._id = some u := by rw [huid]; exact hu
  have hrun : deleteProperty env s id =
      { store :=
          { properties := removeById id s.properties
            users :=
              storeAllProperties u._id (u.allProperties.filter (fun x => x ≠ id)) s.users }
        outcome := jsonMessage 200 "Property deleted successfully"
        events := [.transactionStarted, .transactionCommitted] } := by
    simp [deleteProperty, hread, hP, hu, hsession, removeUnderSession, hremove, hsave, hcommit,
      commit, applyWrite, pull, hid]
  have husers := storeAllProperties_eq_map u._id
    (u.allProperties.filter (fun x => x ≠ id)) s.users hwf.2
  rw [hrun]
  refine ⟨rfl, removeById_eq_filter id _ hwf.1, ?_, husers, ?_, ?_⟩
  · show findPropertyById (removeById id s.properties) id = none
    rw [removeById_eq_filter id _ hwf.1]
    exact findPropertyById_filter_ne _ _
  · exact findUserById_storeAllProperties _ _ _ _ hfind
  · intro v hv hin
    have hv2 : v ∈ s.users.map (fun v =>
        if v._id = u._id then
          { v with allProperties := u.allProperties.filter (fun x => x ≠ id) }
        else v) := by
      rw [← husers]; exact hv
    rcases List.mem_map.1 hv2 with ⟨w, hw, hwv⟩
    by_cases hc : w._id = u._id
    · rw [if_pos hc] at hwv
      subst hwv
      simp at hin
    · rw [if_neg hc] at hwv
      subst hwv
      exact ⟨hw, hc⟩

/-- Witness for C5 as amended: the owner with `allProperties = [10]` ends with the empty
list and Property 10 is gone. -/
theorem deleteProperty_success_witness :
    (deleteProperty calm aliceWithFlat 10).outcome =
        jsonMessage 200 "Property deleted successfully" ∧
      (deleteProperty calm aliceWithFlat 10).store.properties = [] ∧
      findUserById (deleteProperty calm aliceWithFlat 10).store.users 1 = some alice := by
  have h := deleteProperty_success calm aliceWithFlat 10 flat { alice with allProperties := [10] }
    (by decide) (by decide) (by decide) rfl rfl rfl rfl rfl
  exact ⟨h.1, h.2.1, h.2.2.2.2.1⟩

/-- Counterexample for C5 as stated: `flat` exists, its creator resolves and lists it, no
call fails and the handler answers 200, yet after the call the list of `bob` still holds the
identifier of the deleted Property. -/
theorem deleteProperty_other_list_keeps_id :
    findPropertyById listedTwice.properties 10 = some flat ∧
      findUserById listedTwice.users flat.creator = some { alice with allProperties := [10] } ∧
      (deleteProperty calm listedTwice 10).outcome =
        jsonMessage 200 "Property deleted successfully" ∧
      ¬ (∀ v ∈ (deleteProperty calm listedTwice 10).store.users, 10 ∉ v.allProperties) := by
  decide

/-! ## updateProperty -/

theorem findPropertyById_findByIdAndUpdate (id : Nat) (upd : PropertyUpdate) :
    ∀ (ps : List Property) (P : Property), findPropertyById ps id = some P →
      findPropertyById (findByIdAndUpdate id upd ps) id = some (P.assign upd)
  | [], _, h => by simp [findPropertyById] at h
  | p :: ps, P, h => by
    by_cases hp : p._id = id
    · simp only [findPropertyById, List.find?_cons, hp, decide_True] at h
      simp only [Option.some.injEq] at h
      subst h
      simp [findPropertyById, findByIdAndUpdate, hp, Property.assign]
    · have h2 : findPropertyById ps id = some P := by
        simpa [findPropertyById, List.find?_cons, hp] using h
      have ih := findPropertyById_findByIdAndUpdate id upd ps P h2
      simp only [findPropertyById] at ih ⊢
      simp [findByIdAndUpdate, hp, List.find?_cons, ih]

/-- C9, as amended. Update photo rule, for a Property `P` stored under the identifier and a
store write that does not fail.  When a non-empty photo payload is sent and its upload
returns a non-empty url, the image host is called once with the payload and the photo
written is that url.  When the upload returns an empty url, the photo written is the payload
of the request.  When the photo of the request is the empty string, the image host is not
called and the empty string is written over the stored photo.  When the request carries no
photo, the image host is not called and no photo is written: the stored photo is kept. -/
theorem updateProperty_photo (env : Env) (s : Store) (id : Nat) (body : UpdateBody)
    (P : Property)
    (hP : findPropertyById s.properties id = some P)
    (hwrite : env.updateErr = none) :
    (∀ payload url, body.photo = some payload → payload ≠ "" →
      env.upload payload = .ok url → url ≠ "" →
      (updateProperty env s id body).events = [.uploaded payload] ∧
      findPropertyById (updateProperty env s id body).store.properties id =
        some { P with
          title := body.title.getD P.title
          description := body.description.getD P.description
          propertyType := body.propertyType.getD P.propertyType
          location := body.location.getD P.location
          price := body.price.getD P.price
          photo := url }) ∧
    (∀ payload, body.photo = some payload → payload ≠ "" →
      env.upload payload = .ok "" →
      (updateProperty env s id body).events = [.uploaded payload] ∧
      findPropertyById (updateProperty env s id body).store.properties id =
        some { P with
          title := body.title.getD P.title
          description := body.description.getD P.description
          propertyType := body.propertyType.getD P.propertyType
          location := body.location.getD P.location
          price := body.price.getD P.price
          photo := payload }) ∧
    (body.photo = some "" →
      (updateProperty env s id body).events = [] ∧
      findPropertyById (updateProperty env s id body).store.properties id =
        some { P with
          title := body.title.getD P.title
          description := body.description.getD P.description
          propertyType := body.propertyType.getD P.propertyType
          location := body.location.getD P.location
          price := body.price.getD P.price
          photo := "" }) ∧
    (body.photo = none →
      (updateProperty env s id body).events = [] ∧
      findPropertyById (updateProperty env s id body).store.properties id =
        some { P with
          title := body.title.getD P.title
          description := body.description.getD P.description
          propertyType := body.propertyType.getD P.propertyType
          location := body.location.getD P.location
          price := body.price.getD P.price
          photo := P.photo }) := by
  refine ⟨?_, ?_, ?_, ?_⟩
  · intro payload url hbody hpayload hup hurl
    have hrun : updateProperty env s id body =
        writeUpdate env s id body (some url) [.uploaded payload] := by
      simp only [updateProperty, hbody, if_pos hpayload, hup]
    rw [hrun]
    simp only [writeUpdate, hwrite]
    refine ⟨trivial, ?_⟩
    rw [findPropertyById_findByIdAndUpdate id _ _ P hP]
    simp [Property.assign, photoValue, truthy, hurl]
  · intro payload hbody hpayload hup
    have hrun : updateProperty env s id body =
        writeUpdate env s id body (some "") [.uploaded payload] := by
      simp only [updateProperty, hbody, if_pos hpayload, hup]
    rw [hrun]
    simp only [writeUpdate, hwrite]
    refine ⟨trivial, ?_⟩
    rw [findPropertyById_findByIdAndUpdate id _ _ P hP]
    simp [Property.assign, photoValue, truthy, hbody]
  · intro hbody
    have hrun : updateProperty env s id body = writeUpdate env s id body none [] := by
      simp [updateProperty, hbody]
    rw [hrun]
    simp only [writeUpdate, hwrite]
    refine ⟨trivial, ?_⟩
    rw [findPropertyById_findByIdAndUpdate id _ _ P hP]
    simp [Property.assign, photoValue, truthy, hbody]
  · intro hbody
    have hrun : updateProperty env s id body = writeUpdate env s id body none [] := by
      simp [updateProperty, hbody]
    rw [hrun]
    simp only [writeUpdate, hwrite]
    refine ⟨trivial, ?_⟩
    rw [findPropertyById_findByIdAndUpdate id _ _ P hP]
    simp [Property.assign, photoValue, truthy, hbody]

/-- Witness for C9 as amended: a payload uploaded to a non-empty url, a payload uploaded to
an empty url, a request whose photo is the empty string, and a request without photo. -/
theorem updateProperty_photo_witness :
    ((updateProperty calm aliceWithFlat 10 flatEdit).events =
        [.uploaded "data:image/png;base64,BBBB"] ∧
      findPropertyById (updateProperty calm aliceWithFlat 10 flatEdit).store.properties 10 =
        some { flat with
          description := "Three rooms", price := 120000,
          photo := "https://img.example/flat.png" }) ∧
    ((updateProperty blankUrl aliceWithFlat 10 flatEdit).events =
        [.uploaded "data:image/png;base64,BBBB"] ∧
      findPropertyById (updateProperty blankUrl aliceWithFlat 10 flatEdit).store.properties 10 =
        some { flat with
          description := "Three rooms", price := 120000,
          photo := "data:image/png;base64,BBBB" }) ∧
    ((updateProperty calm aliceWithFlat 10 flatEditEmptyPhoto).events = [] ∧
      findPropertyById
          (updateProperty calm aliceWithFlat 10 flatEditEmptyPhoto).store.properties 10 =
        some { flat with description := "Three rooms", price := 120000, photo := "" }) ∧
    ((updateProperty calm aliceWithFlat 10 flatEditNoPhoto).events = [] ∧
      findPropertyById
          (updateProperty calm aliceWithFlat 10 flatEditNoPhoto).store.properties 10 =
        some { flat with
          description := "Three rooms", price := 120000,
          photo := "https://img.example/flat.png" }) :=
  ⟨(updateProperty_photo calm aliceWithFlat 10 flatEdit flat (by decide) rfl).1
      "data:image/png;base64,BBBB" "https://img.example/flat.png" rfl (by decide) rfl
      (by decide),
    (updateProperty_photo blankUrl aliceWithFlat 10 flatEdit flat (by decide) rfl).2.1
      "data:image/png;base64,BBBB" rfl (by decide) rfl,
    (updateProperty_photo calm aliceWithFlat 10 flatEditEmptyPhoto flat (by decide) rfl).2.2.1
      rfl,
    (updateProperty_photo calm aliceWithFlat 10 flatEditNoPhoto flat (by decide) rfl).2.2.2
      rfl⟩

/-- Counterexample for C9 as stated.  First, a request that carries no photo: no upload is
made, the handler answers 200, and the photo of the Property after the call is the stored
one.  Second, a payload whose upload succeeds with an empty url: the photo written is the raw
payload. -/
theorem updateProperty_photo_not_as_stated :
    (flatEditNoPhoto.photo = none ∧
      (updateProperty calm aliceWithFlat 10 flatEditNoPhoto).outcome =
        jsonMessage 200 "Property updated successfully" ∧
      (updateProperty calm aliceWithFlat 10 flatEditNoPhoto).events = [] ∧
      (findPropertyById aliceWithFlat.properties 10).map (fun p => p.photo) =
        some "https://img.example/flat.png" ∧
      (findPropertyById (updateProperty calm aliceWithFlat 10 flatEditNoPhoto).store.properties
          10).map (fun p => p.photo) = some "https://img.example/flat.png") ∧
    (flatEdit.photo = some "data:image/png;base64,BBBB" ∧
      blankUrl.upload "data:image/png;base64,BBBB" = .ok "" ∧
      (updateProperty blankUrl aliceWithFlat 10 flatEdit).outcome =
        jsonMessage 200 "Property updated successfully" ∧
      (findPropertyById (updateProperty blankUrl aliceWithFlat 10 flatEdit).store.properties
          10).map (fun p => p.photo) = some "data:image/png;base64,BBBB") :=
  ⟨⟨by decide, by decide, by decide, by decide, by decide⟩,
    ⟨by decide, rfl, by decide, by decide⟩⟩

/-- C8, at the failing inputs. Whatever the environment, `updateProperty` either answers 200
or ends in its `catch` block, which throws before anything is sent: it never answers 500.
So when the upload fails or the store write fails no response is sent, and when the
identifier matches no Property the handler answers 200 and the store is unchanged. -/
theorem updateProperty_failure_sends_nothing :
    (∀ (env : Env) (s : Store) (id : Nat) (body : UpdateBody),
        (updateProperty env s id body).outcome =
            jsonMessage 200 "Property updated successfully" ∨
          (updateProperty env s id body).outcome =
            .uncaught "ReferenceError: error is not defined") ∧
      (updateProperty hostDown aliceWithFlat 10 flatEdit).outcome =
        .uncaught "ReferenceError: error is not defined" ∧
      (updateProperty updateDown aliceWithFlat 10 flatEdit).outcome =
        .uncaught "ReferenceError: error is not defined" ∧
      findPropertyById aliceWithFlat.properties 99 = none ∧
      (updateProperty calm aliceWithFlat 99 flatEdit).outcome =
        jsonMessage 200 "Property updated successfully" ∧
      (updateProperty calm aliceWithFlat 99 flatEdit).store = aliceWithFlat := by
  refine ⟨?_, by decide, by decide, by decide, by decide, by decide⟩
  intro env s id body
  have hwrite : ∀ url events,
      (writeUpdate env s id body url events).outcome =
          jsonMessage 200 "Property updated successfully" ∨
        (writeUpdate env s id body url events).outcome =
          .uncaught "ReferenceError: error is not defined" := by
    intro url events
    unfold writeUpdate
    cases env.updateErr <;> simp [updateCatch]
  unfold updateProperty
  cases body.photo with
  | none => exact hwrite none []
  | some payload =>
    by_cases hpayload : payload ≠ ""
    · simp only [if_pos hpayload]
      cases env.upload payload with
      | error e => simp [updateCatch]
      | ok url => exact hwrite (some url) [.uploaded payload]
    · simp only [if_neg hpayload]
      exact hwrite none []

/-! ## Atomicity and referential integrity at the failing inputs -/

/-- A `createProperty` whose upload fails leaves the store as it was. -/
theorem createProperty_store_of_upload_error (env : Env) (s : Store) (body : CreateBody)
    (e : String) (hupload : env.upload body.photo = .error e) :
    (createProperty env s body).store = s := by
  unfold createProperty
  cases env.startSessionErr <;> cases env.findErr <;>
    cases findUserByEmail s.users body.email <;> simp [hupload]

/-- A `createProperty` whose insert fails leaves the store as it was. -/
theorem createProperty_store_of_insert_error (env : Env) (s : Store) (body : CreateBody)
    (e : String) (hinsert : env.insertErr = some e) :
    (createProperty env s body).store = s := by
  unfold createProperty
  cases env.startSessionErr <;> cases env.findErr <;>
    cases findUserByEmail s.users body.email <;>
    cases env.upload body.photo <;> simp [insertProperty, hinsert]

/-- A `createProperty` that reaches `user.save` and fails there, or at the commit, leaves the
inserted Property in the store and the users as they were. -/
theorem createProperty_store_of_late_failure (env : Env) (s : Store) (body : CreateBody)
    (u : User) (url : String)
    (hu : findUserByEmail s.users body.email = some u)
    (hsession : env.startSessionErr = none)
    (hread : env.findErr = none)
    (hupload : env.upload body.photo = .ok url)
    (hinsert : env.insertErr = none)
    (hfresh : ∀ p ∈ s.properties, p._id ≠ env.newId)
    (hlate : env.saveErr ≠ none ∨ env.commitErr ≠ none) :
    (createProperty env s body).store =
      { s with
        properties := s.properties ++
          [{ _id := env.newId, title := body.title, description := body.description,
             propertyType := body.propertyType, location := body.location,
             price := body.price, photo := url, creator := u._id }] } := by
  have hdup : ¬ ∃ a ∈ s.properties, a._id = env.newId := by
    rintro ⟨p, hp, hid⟩
    exact hfresh p hp hid
  unfold createProperty
  cases hs : env.saveErr with
  | some e => simp [hsession, hread, hu, hupload, insertProperty, hinsert, hdup]
  | none =>
    cases hc : env.commitErr with
    | some e => simp [hsession, hread, hu, hupload, insertProperty, hinsert, hdup]
    | none =>
      rcases hlate with h | h
      · exact absurd hs h
      · exact absurd hc h

/-- A `deleteProperty` whose `creator.save` or commit fails leaves the store as it was. -/
theorem deleteProperty_store_of_late_failure (env : Env) (s : Store) (id : Nat)
    (hlate : env.saveErr ≠ none ∨ env.commitErr ≠ none) :
    (deleteProperty env s id).store = s := by
  unfold deleteProperty
  cases hs : env.saveErr with
  | some e =>
    cases env.findErr <;> cases findPropertyById s.properties id <;>
      cases env.startSessionErr <;> simp
    cases findUserById s.users _ <;> simp
  | none =>
    cases hc : env.commitErr with
    | some e =>
      cases env.findErr <;> cases findPropertyById s.properties id <;>
        cases env.startSessionErr <;> simp
      cases findUserById s.users _ <;> simp
    | none =>
      rcases hlate with h | h
      · exact absurd hs h
      · exact absurd hc h

/-- C1, at the failing inputs. The email resolves to `alice`; when `user.save` or the commit
fails, `createProperty` answers 500 and the store holds the new Property while the
`allProperties` of `alice` is still empty, so the store differs from the one before the
call.  A failed upload or a failed insert leaves the store as it was. -/
theorem createProperty_late_failure_keeps_property :
    findUserByEmail aliceOnly.users flatRequest.email = some alice ∧
      (createProperty saveDown aliceOnly flatRequest).outcome =
        jsonMessage 500 "Failed to create property, please try again later" ∧
      (createProperty saveDown aliceOnly flatRequest).store =
        { properties := [flat], users := [alice] } ∧
      (createProperty saveDown aliceOnly flatRequest).store ≠ aliceOnly ∧
      (createProperty commitDown aliceOnly flatRequest).store =
        { properties := [flat], users := [alice] } ∧
      (createProperty hostDown aliceOnly flatRequest).store = aliceOnly ∧
      (createProperty insertDown aliceOnly flatRequest).store = aliceOnly := by
  decide

/-- C2, at the failing input. When `propertyToDelete.remove` fails, `deleteProperty` still
answers 200 and commits the save of the creator: the Property is kept and the
`allProperties` of its creator has lost the identifier.  A failed save or a failed commit
leaves the store as it was. -/
theorem deleteProperty_remove_failure_alters_list :
    findPropertyById aliceWithFlat.properties 10 = some flat ∧
      (deleteProperty removeDown aliceWithFlat 10).outcome =
        jsonMessage 200 "Property deleted successfully" ∧
      (deleteProperty removeDown aliceWithFlat 10).store =
        { properties := [flat], users := [alice] } ∧
      (deleteProperty removeDown aliceWithFlat 10).store ≠ aliceWithFlat ∧
      (deleteProperty saveDown aliceWithFlat 10).store = aliceWithFlat ∧
      (deleteProperty commitDown aliceWithFlat 10).store = aliceWithFlat := by
  decide

/-- C3, at the failing inputs. Referential integrity holds before the call and fails after
it: after a `createProperty` whose `user.save` fails, and after a `deleteProperty` whose
`remove` fails, a Property is stored whose creator does not list it. -/
theorem integrity_broken_by_partial_writes :
    integrity aliceOnly = true ∧
      integrity (createProperty saveDown aliceOnly flatRequest).store = false ∧
      integrity (createProperty commitDown aliceOnly flatRequest).store = false ∧
      integrity aliceWithFlat = true ∧
      integrity (deleteProperty removeDown aliceWithFlat 10).store = false := by
  decide

/-! ## getAllProperties -/

/-- C10, at the failing input. Of three listings one is an apartment whose title holds
`lake`; the page holds that one document, while the `x-total-count` header is 3 with
`strictQuery` on and 0 with it off. -/
theorem getAllProperties_count_ignores_filter :
    countDocuments calm listings.properties (asFilter (buildQuery lakeApartments)) = 1 ∧
      (getAllProperties calm listings lakeApartments).outcome =
        .sent { status := 200
                headers := [("x-total-count", .num 3),
                            ("Access-Control-Expose-Headers", .str "x-total-count")]
                body := .properties [lakeFlat] } ∧
      totalCount (getAllProperties calm listings lakeApartments).outcome = some (.num 3) ∧
      totalCount (getAllProperties loose listings lakeApartments).outcome = some (.num 0) := by
  decide

end PropertyController
